import Mathlib

set_option linter.unusedVariables false

/-!
Shallow embedding of the phoenix-rtos-tests orchestration core
(`trunner/test_runner.py`) and of the interactive login helper
(`psh/tools/login.py`), together with theorems settling the stated
properties of the runner.
-/

/-- Modelled from the spec: `trunner.types.Status` is not under the sources;
the spec fixes the status of a test result to one of OK, FAIL, SKIP. -/
inductive Status where
  | OK
  | FAIL
  | SKIP
deriving DecidableEq, Repr

/-- Modelled from the spec: `trunner.types.TestResult` is not under the
sources.  A result carries a test name, a status and an optional message
(present on FAIL, explaining the cause).  The constructor default status is
modelled as OK (the pending-OK state); it is overwritten on every observed
path of the runner. -/
structure TestResult where
  name : String
  status : Status
  msg : Option String
deriving DecidableEq, Repr

/-- Modelled from the spec: `TestResult.skip()` finalises the result as SKIP. -/
def TestResult.skip (r : TestResult) : TestResult :=
  { r with status := Status.SKIP }

/-- Modelled from the spec: `TestResult.fail(msg)` finalises the result as
FAIL and records the cause message. -/
def TestResult.fail (r : TestResult) (m : String) : TestResult :=
  { r with status := Status.FAIL, msg := some m }

/-- Modelled from the spec: status test used by the runner. -/
def TestResult.is_fail (r : TestResult) : Bool :=
  r.status = Status.FAIL

/-- Modelled from the spec: status test used by the runner. -/
def TestResult.is_skip (r : TestResult) : Bool :=
  r.status = Status.SKIP

/-- Modelled from the spec: the `bootloader` sub-structure of a test
descriptor; its `apps` field is a list whose Python truthiness is
non-emptiness. -/
structure Bootloader where
  apps : List String
deriving DecidableEq, Repr

/-- Modelled from the spec: `trunner.types.TestOptions` is not under the
sources.  The fields the orchestration core reads and writes: `name`,
`ignore`, the mutable `should_reboot` flag and the optional `bootloader`
requirement. -/
structure TestOptions where
  name : String
  ignore : Bool
  should_reboot : Bool
  bootloader : Option Bootloader
deriving DecidableEq, Repr

/-- Default descriptor used only to totalise out-of-range list reads, which
in the Python source would raise IndexError and are unreachable from the
runner loop. -/
def defaultTest : TestOptions :=
  { name := "", ignore := false, should_reboot := true, bootloader := none }

instance : Inhabited TestOptions := ⟨defaultTest⟩

/-- Modelled from the spec: the process-wide run context consumed read-only
by the runner (`nightly`, `should_flash`, `should_test`), together with the
behaviour of the external `Target.flash_dut` call (`flashOk` is false when
flashing raises a FlashError or HarnessError). -/
structure Ctx where
  nightly : Bool
  should_flash : Bool
  should_test : Bool
  flashOk : Bool
deriving DecidableEq, Repr

/-- Outcome of invoking the harness built for one descriptor: it returns a
TestResult, raises a HarnessError with a message, or returns None. -/
inductive HarnessOutcome where
  | ret (r : TestResult)
  | err (m : String)
  | retNone
deriving DecidableEq, Repr

/-- Trace events recording the runner's calls into the external Target:
building the harness for the descriptor at a given index, and invoking it. -/
inductive Event where
  | buildTest (idx : Nat) (name : String)
  | invokeHarness (idx : Nat) (name : String)
deriving DecidableEq, Repr

/-- Index of the descriptor an event belongs to. -/
def Event.idx : Event → Nat
  | Event.buildTest i _ => i
  | Event.invokeHarness i _ => i

/-- Truthiness of `test.bootloader is not None and test.bootloader.apps`
(test_runner.py line 137). -/
def bootApps (t : TestOptions) : Bool :=
  match t.bootloader with
  | none => false
  | some bl => !bl.apps.isEmpty

/-- The `should_reboot` field of the descriptor at index `i`. -/
def rebootAt (tests : List TestOptions) (i : Nat) : Bool :=
  (tests.getD i defaultTest).should_reboot

/-- The assignment `tests[i].should_reboot = b` (a no-op when `i` is out of
range, which is unreachable from the runner loop). -/
def setShouldReboot (tests : List TestOptions) (i : Nat) (b : Bool) : List TestOptions :=
  match tests[i]? with
  | none => tests
  | some t => tests.set i { t with should_reboot := b }

/-- Embedding of `set_reboot_flag(tests, idx, result)` (test_runner.py lines
119-141): no-op when `idx` is the last index, otherwise assign False to
`tests[idx+1].should_reboot`, propagate `tests[idx].should_reboot` when the
result is SKIP, and override to True when the result is FAIL, the context is
nightly, or `tests[idx+1]` has a truthy bootloader apps requirement. -/
def set_reboot_flag (ctx : Ctx) (tests : List TestOptions) (idx : Nat)
    (result : TestResult) : List TestOptions :=
  if idx = tests.length - 1 then
    tests
  else
    let tests1 := setShouldReboot tests (idx + 1) false
    let tests2 :=
      if result.is_skip then
        setShouldReboot tests1 (idx + 1) (rebootAt tests1 idx)
      else tests1
    if result.is_fail || ctx.nightly || bootApps (tests2.getD (idx + 1) defaultTest) then
      setShouldReboot tests2 (idx + 1) true
    else
      tests2

/-- Erase the mutable `should_reboot` field, keeping every other field; two
descriptors agree after `stripReboot` exactly when they differ at most in
`should_reboot`. -/
def stripReboot (t : TestOptions) : TestOptions :=
  { t with should_reboot := false }

theorem length_setShouldReboot (tests : List TestOptions) (i : Nat) (b : Bool) :
    (setShouldReboot tests i b).length = tests.length := by
  unfold setShouldReboot
  cases h : tests[i]? with
  | none => rfl
  | some t => simp [List.length_set]

theorem getElem?_setShouldReboot_ne (tests : List TestOptions) (i j : Nat) (b : Bool)
    (hne : j ≠ i) : (setShouldReboot tests i b)[j]? = tests[j]? := by
  unfold setShouldReboot
  cases h : tests[i]? with
  | none => rfl
  | some t => exact List.getElem?_set_ne (fun hij => hne hij.symm)

theorem getElem?_setShouldReboot_eq (tests : List TestOptions) (i : Nat) (b : Bool)
    (t : TestOptions) (h : tests[i]? = some t) :
    (setShouldReboot tests i b)[i]? = some { t with should_reboot := b } := by
  unfold setShouldReboot
  rw [h]
  have hlt : i < tests.length := by
    cases Nat.lt_or_ge i tests.length with
    | inl hl => exact hl
    | inr hr => rw [List.getElem?_eq_none hr] at h; cases h
  exact List.getElem?_set_eq_of_lt _ hlt

theorem strip_getElem?_setShouldReboot (tests : List TestOptions) (i j : Nat) (b : Bool) :
    ((setShouldReboot tests i b)[j]?).map stripReboot = (tests[j]?).map stripReboot := by
  by_cases hji : j = i
  · subst hji
    cases h : tests[j]? with
    | none =>
      simp only [setShouldReboot, h]
    | some t =>
      rw [getElem?_setShouldReboot_eq tests j b t h]
      simp [stripReboot]
  · rw [getElem?_setShouldReboot_ne tests i j b hji]

/-- The TestResult computed for the descriptor at index `idx` in one loop
iteration of `run_tests` (test_runner.py lines 94-110): a fresh result is
skipped when `ignore` is set; otherwise the harness outcome is taken — a
raised HarnessError turns the fresh result into FAIL with the error message,
and a None return is reinitialised to an OK result. -/
def resultFor (hb : Nat → HarnessOutcome) (idx : Nat) (test : TestOptions) : TestResult :=
  if test.ignore then
    (TestResult.mk test.name Status.OK none).skip
  else
    match hb idx with
    | HarnessOutcome.ret r => r
    | HarnessOutcome.err m => (TestResult.mk test.name Status.OK none).fail m
    | HarnessOutcome.retNone => TestResult.mk test.name Status.OK none

/-- State threaded through the `run_tests` loop: the live (mutated)
descriptor list, the `fail` and `skip` counters, the trace of Target calls
and the list of results printed so far, in order. -/
structure RunState where
  tests : List TestOptions
  fail : Nat
  skip : Nat
  events : List Event
  results : List TestResult
deriving Repr

/-- One iteration of the `run_tests` loop at index `idx` (test_runner.py
lines 93-141): compute the result (building and invoking the harness unless
the descriptor is ignored), bump the `fail` or `skip` counter, then apply
`set_reboot_flag`. -/
def runStep (ctx : Ctx) (hb : Nat → HarnessOutcome) (st : RunState) (idx : Nat) : RunState :=
  match st.tests[idx]? with
  | none => st
  | some test =>
    let result := resultFor hb idx test
    let events :=
      if test.ignore then st.events
      else st.events ++ [Event.buildTest idx test.name, Event.invokeHarness idx test.name]
    { tests := set_reboot_flag ctx st.tests idx result
      fail := if result.is_fail then st.fail + 1 else st.fail
      skip := if result.is_fail then st.skip else if result.is_skip then st.skip + 1 else st.skip
      events := events
      results := st.results ++ [result] }

/-- Embedding of `run_tests(tests)` (test_runner.py lines 81-143): fold the
loop body over the indices of the descriptor list, starting from zero
counters, an empty trace and the given list. -/
def run_tests (ctx : Ctx) (hb : Nat → HarnessOutcome) (tests : List TestOptions) : RunState :=
  (List.range tests.length).foldl (runStep ctx hb) (RunState.mk tests 0 0 [] [])

/-- Embedding of `run()` (test_runner.py lines 145-166), given the already
parsed descriptor list (parsing is an external collaborator).  `none` models
`sys.exit(1)` from the flashing phase; otherwise the campaign's boolean
success (`fails == 0`) is returned together with the trace of Target calls
made while running tests. -/
def run (ctx : Ctx) (hb : Nat → HarnessOutcome) (tests : List TestOptions) :
    Option (Bool × List Event) :=
  if ctx.should_flash && !ctx.flashOk then
    none
  else if !ctx.should_test then
    some (true, [])
  else
    let st := run_tests ctx hb tests
    some (decide (st.fail = 0), st.events)

/-- The result the runner computes for index `idx`, recomputed from the
initial descriptor list; this is well defined because the loop only ever
mutates `should_reboot`, which `resultFor` does not read. -/
def resultAt (hb : Nat → HarnessOutcome) (tests : List TestOptions) (idx : Nat) : TestResult :=
  resultFor hb idx (tests.getD idx defaultTest)

/-- The Target-call events iteration `idx` appends, recomputed from the
initial descriptor list. -/
def eventsFor (tests : List TestOptions) (idx : Nat) : List Event :=
  let t := tests.getD idx defaultTest
  if t.ignore then []
  else [Event.buildTest idx t.name, Event.invokeHarness idx t.name]

/-- Number of descriptors whose final result is FAIL. -/
def countFailures (hb : Nat → HarnessOutcome) (tests : List TestOptions) : Nat :=
  (List.range tests.length).countP (fun i => (resultAt hb tests i).is_fail)

/-- Number of descriptors whose final result is SKIP (and not FAIL),
mirroring the `elif` in the counting code. -/
def countSkips (hb : Nat → HarnessOutcome) (tests : List TestOptions) : Nat :=
  (List.range tests.length).countP
    (fun i => !(resultAt hb tests i).is_fail && (resultAt hb tests i).is_skip)

theorem length_set_reboot_flag (ctx : Ctx) (tests : List TestOptions) (idx : Nat)
    (result : TestResult) :
    (set_reboot_flag ctx tests idx result).length = tests.length := by
  unfold set_reboot_flag
  by_cases hl : idx = tests.length - 1
  · simp [hl]
  · simp only [hl, if_false]
    split <;> split <;> simp [length_setShouldReboot]

theorem getElem?_set_reboot_flag_ne (ctx : Ctx) (tests : List TestOptions) (idx : Nat)
    (result : TestResult) (j : Nat) (hne : j ≠ idx + 1) :
    (set_reboot_flag ctx tests idx result)[j]? = tests[j]? := by
  unfold set_reboot_flag
  by_cases hl : idx = tests.length - 1
  · simp [hl]
  · simp only [hl, if_false]
    split <;> split <;> simp only [getElem?_setShouldReboot_ne _ _ _ _ hne]

theorem strip_getElem?_set_reboot_flag (ctx : Ctx) (tests : List TestOptions) (idx : Nat)
    (result : TestResult) (j : Nat) :
    ((set_reboot_flag ctx tests idx result)[j]?).map stripReboot
      = (tests[j]?).map stripReboot := by
  unfold set_reboot_flag
  by_cases hl : idx = tests.length - 1
  · simp [hl]
  · simp only [hl, if_false]
    split <;> split <;> simp only [strip_getElem?_setShouldReboot]

theorem set_reboot_flag_last (ctx : Ctx) (tests : List TestOptions) (idx : Nat)
    (result : TestResult) (hl : idx = tests.length - 1) :
    set_reboot_flag ctx tests idx result = tests := by
  unfold set_reboot_flag
  simp [hl]

theorem resultFor_congr (hb : Nat → HarnessOutcome) (idx : Nat) (t1 t2 : TestOptions)
    (h : stripReboot t1 = stripReboot t2) : resultFor hb idx t1 = resultFor hb idx t2 := by
  have hig := congrArg TestOptions.ignore h
  have hnm := congrArg TestOptions.name h
  simp only [stripReboot] at hig hnm
  unfold resultFor
  rw [hig, hnm]

/-- Initial state of the `run_tests` loop. -/
def initState (tests : List TestOptions) : RunState :=
  RunState.mk tests 0 0 [] []

/-- The state of the `run_tests` loop after the first `n` iterations. -/
def runUpTo (ctx : Ctx) (hb : Nat → HarnessOutcome) (tests : List TestOptions)
    (n : Nat) : RunState :=
  (List.range n).foldl (runStep ctx hb) (initState tests)

theorem run_tests_eq_runUpTo (ctx : Ctx) (hb : Nat → HarnessOutcome)
    (tests : List TestOptions) :
    run_tests ctx hb tests = runUpTo ctx hb tests tests.length := rfl

theorem runUpTo_invariant (ctx : Ctx) (hb : Nat → HarnessOutcome)
    (tests0 : List TestOptions) (n : Nat) (hn : n ≤ tests0.length) :
    (runUpTo ctx hb tests0 n).tests.length = tests0.length ∧
    (∀ j : Nat, ((runUpTo ctx hb tests0 n).tests[j]?).map stripReboot
        = (tests0[j]?).map stripReboot) ∧
    (runUpTo ctx hb tests0 n).tests[0]? = tests0[0]? ∧
    (runUpTo ctx hb tests0 n).results = (List.range n).map (resultAt hb tests0) ∧
    (runUpTo ctx hb tests0 n).fail
      = (List.range n).countP (fun i => (resultAt hb tests0 i).is_fail) ∧
    (runUpTo ctx hb tests0 n).skip
      = (List.range n).countP
          (fun i => !(resultAt hb tests0 i).is_fail && (resultAt hb tests0 i).is_skip) ∧
    (runUpTo ctx hb tests0 n).events = (List.range n).flatMap (eventsFor tests0) := by
  induction n with
  | zero => simp [runUpTo, initState]
  | succ n ih =>
    have hn' : n ≤ tests0.length := Nat.le_of_succ_le hn
    have hlt : n < tests0.length := hn
    obtain ⟨ihlen, ihstrip, ihzero, ihres, ihfail, ihskip, ihev⟩ := ih hn'
    have hstep : runUpTo ctx hb tests0 (n + 1)
        = runStep ctx hb (runUpTo ctx hb tests0 n) n := by
      unfold runUpTo
      rw [List.range_succ, List.foldl_append]
      rfl
    have ht0 : tests0[n]? = some tests0[n] := List.getElem?_eq_getElem hlt
    have hsome : ∃ t, (runUpTo ctx hb tests0 n).tests[n]? = some t := by
      have hs := ihstrip n
      rw [ht0] at hs
      cases hq : (runUpTo ctx hb tests0 n).tests[n]? with
      | none => rw [hq] at hs; simp at hs
      | some t => exact ⟨t, rfl⟩
    obtain ⟨t, ht⟩ := hsome
    have hts : stripReboot t = stripReboot tests0[n] := by
      have hs := ihstrip n
      rw [ht0, ht] at hs
      simpa using hs
    have hig := congrArg TestOptions.ignore hts
    have hnm := congrArg TestOptions.name hts
    simp only [stripReboot] at hig hnm
    have hgetD : tests0.getD n defaultTest = tests0[n] := by
      rw [List.getD_eq_getElem?_getD, ht0]
      rfl
    have hres : resultFor hb n t = resultAt hb tests0 n := by
      rw [resultFor_congr hb n t tests0[n] hts]
      unfold resultAt
      rw [hgetD]
    have hevn : eventsFor tests0 n
        = if t.ignore then ([] : List Event)
          else [Event.buildTest n t.name, Event.invokeHarness n t.name] := by
      unfold eventsFor
      rw [hgetD, hig, hnm]
    rw [hstep]
    simp only [runStep, ht]
    refine ⟨?_, ?_, ?_, ?_, ?_, ?_, ?_⟩
    · rw [length_set_reboot_flag]
      exact ihlen
    · intro j
      rw [strip_getElem?_set_reboot_flag]
      exact ihstrip j
    · rw [getElem?_set_reboot_flag_ne]
      · exact ihzero
      · exact (Nat.succ_ne_zero n).symm
    · rw [List.range_succ, List.map_append, ihres, hres]
      rfl
    · rw [List.range_succ, List.countP_append, ihfail, hres]
      by_cases hf : (resultAt hb tests0 n).is_fail <;> simp [hf]
    · rw [List.range_succ, List.countP_append, ihskip, hres]
      by_cases hf : (resultAt hb tests0 n).is_fail
      · simp [hf]
      · by_cases hs : (resultAt hb tests0 n).is_skip <;> simp [hf, hs]
    · rw [List.range_succ, List.flatMap_append, ihev]
      by_cases hi : t.ignore <;> simp [hi, hevn]

theorem bootApps_congr (t1 t2 : TestOptions) (h : stripReboot t1 = stripReboot t2) :
    bootApps t1 = bootApps t2 := by
  have hbl := congrArg TestOptions.bootloader h
  simp only [stripReboot] at hbl
  unfold bootApps
  rw [hbl]

theorem getD_strip_congr (o1 o2 : Option TestOptions)
    (h : o1.map stripReboot = o2.map stripReboot) :
    stripReboot (o1.getD defaultTest) = stripReboot (o2.getD defaultTest) := by
  cases o1 <;> cases o2 <;> simp_all

theorem bootApps_setShouldReboot (tests : List TestOptions) (i j : Nat) (b : Bool) :
    bootApps ((setShouldReboot tests i b).getD j defaultTest)
      = bootApps (tests.getD j defaultTest) := by
  rw [List.getD_eq_getElem?_getD, List.getD_eq_getElem?_getD]
  exact bootApps_congr _ _ (getD_strip_congr _ _ (strip_getElem?_setShouldReboot tests i j b))

theorem rebootAt_setShouldReboot_eq (tests : List TestOptions) (i : Nat) (b : Bool)
    (h : i < tests.length) : rebootAt (setShouldReboot tests i b) i = b := by
  have ht : tests[i]? = some tests[i] := List.getElem?_eq_getElem h
  unfold rebootAt
  rw [List.getD_eq_getElem?_getD, getElem?_setShouldReboot_eq tests i b _ ht]
  rfl

theorem rebootAt_setShouldReboot_ne (tests : List TestOptions) (i j : Nat) (b : Bool)
    (hne : j ≠ i) : rebootAt (setShouldReboot tests i b) j = rebootAt tests j := by
  unfold rebootAt
  rw [List.getD_eq_getElem?_getD, List.getD_eq_getElem?_getD,
      getElem?_setShouldReboot_ne tests i j b hne]

theorem bootApps_setShouldReboot_getElem (tests : List TestOptions) (i j : Nat) (b : Bool)
    (hj : j < (setShouldReboot tests i b).length) :
    bootApps (setShouldReboot tests i b)[j] = bootApps (tests.getD j defaultTest) := by
  have h1 : (setShouldReboot tests i b)[j] = (setShouldReboot tests i b).getD j defaultTest := by
    rw [List.getD_eq_getElem?_getD, List.getElem?_eq_getElem hj]
    rfl
  rw [h1, bootApps_setShouldReboot]

/-- Decision table of the reboot strategy: the value `set_reboot_flag` leaves
in `tests[idx+1].should_reboot`, as a function of the result's status flags,
the nightly flag, the next descriptor's bootloader apps requirement and the
current descriptor's own `should_reboot`. -/
theorem rebootAt_set_reboot_flag (ctx : Ctx) (tests : List TestOptions) (idx : Nat)
    (result : TestResult) (h : idx + 1 < tests.length) :
    rebootAt (set_reboot_flag ctx tests idx result) (idx + 1)
      = (if result.is_fail || ctx.nightly || bootApps (tests.getD (idx + 1) defaultTest)
         then true
         else if result.is_skip then rebootAt tests idx
         else false) := by
  have hne : idx ≠ tests.length - 1 := by omega
  have hii : idx ≠ idx + 1 := by omega
  simp only [set_reboot_flag, if_neg hne]
  cases hskip : result.is_skip <;>
    cases hfail : result.is_fail <;>
      cases hnight : ctx.nightly <;>
        cases happs : bootApps (tests.getD (idx + 1) defaultTest) <;>
          rw [List.getD_eq_getElem tests defaultTest h] at happs <;>
          simp [hskip, hfail, hnight, happs, bootApps_setShouldReboot,
            bootApps_setShouldReboot_getElem,
            rebootAt_setShouldReboot_eq, rebootAt_setShouldReboot_ne,
            length_setShouldReboot, h, hii]

/-- Abstract filesystem path as seen by `search_for_tests` (test_runner.py
lines 32-53): whether it is a directory, whether it is an existing file, its
extension (Python `path.suffix`), and the results of the two recursive glob
calls `rglob("test*.yaml")` and `rglob("test*.yml")` (meaningful for
directories). -/
inductive FsPath where
  | mk (isDir : Bool) (isFile : Bool) (ext : String)
      (yamlMatches : List FsPath) (ymlMatches : List FsPath)

/-- Whether the path is a directory. -/
def FsPath.isDir : FsPath → Bool
  | FsPath.mk d _ _ _ _ => d

/-- Whether the path is an existing file. -/
def FsPath.isFile : FsPath → Bool
  | FsPath.mk _ f _ _ _ => f

/-- The extension of the path, Python `path.suffix`. -/
def FsPath.ext : FsPath → String
  | FsPath.mk _ _ e _ _ => e

/-- The files below the path matching `test*.yaml`, in traversal order. -/
def FsPath.yamlMatches : FsPath → List FsPath
  | FsPath.mk _ _ _ ya _ => ya

/-- The files below the path matching `test*.yml`, in traversal order. -/
def FsPath.ymlMatches : FsPath → List FsPath
  | FsPath.mk _ _ _ _ ym => ym

/-- The loop body of `search_for_tests` for one input path (test_runner.py
lines 37-49): an `error` models the raised ValueError. -/
def searchOne (p : FsPath) : Except String (List FsPath) :=
  if p.isDir then
    let yamls := p.yamlMatches ++ p.ymlMatches
    if yamls.isEmpty then
      Except.error "does not contain .yaml test configuration"
    else
      Except.ok yamls
  else if p.isFile then
    if p.ext ≠ ".yaml" && p.ext ≠ ".yml" then
      Except.error "Test configuration must be a file with .yaml or .yml extension"
    else
      Except.ok [p]
  else
    Except.error "Test configuration is neither a directory nor a file."

/-- Embedding of `search_for_tests` (test_runner.py lines 32-53): process the
input paths in order, propagating the first raised error, and otherwise
concatenating the matches of each path in input order. -/
def search_for_tests : List FsPath → Except String (List FsPath)
  | [] => Except.ok []
  | p :: rest =>
    match searchOne p with
    | Except.error e => Except.error e
    | Except.ok ys =>
      match search_for_tests rest with
      | Except.error e => Except.error e
      | Except.ok more => Except.ok (ys ++ more)

/-- A path on which discovery fails, as the claim states it: a directory
containing zero matching files, an existing file whose extension is neither
.yaml nor .yml, or neither an existing file nor a directory. -/
def badPath (p : FsPath) : Bool :=
  (p.isDir && (p.yamlMatches ++ p.ymlMatches).isEmpty) ||
  (p.isFile && (p.ext ≠ ".yaml" && p.ext ≠ ".yml")) ||
  (!p.isDir && !p.isFile)

/-- The matches contributed by one good input path: the recursive glob
results for a directory, the path itself for a matching file. -/
def pathMatches (p : FsPath) : List FsPath :=
  if p.isDir then p.yamlMatches ++ p.ymlMatches else [p]

theorem searchOne_spec (p : FsPath)
    (hwf : ¬(p.isDir = true ∧ p.isFile = true)) :
    (badPath p = true → ∃ e, searchOne p = Except.error e) ∧
    (badPath p = false → searchOne p = Except.ok (pathMatches p)) := by
  unfold searchOne badPath pathMatches
  cases hd : p.isDir with
  | true =>
    have hf : p.isFile = false := by
      cases hq : p.isFile with
      | true => exact absurd ⟨hd, hq⟩ hwf
      | false => rfl
    cases he : (p.yamlMatches ++ p.ymlMatches).isEmpty with
    | true => simp [hd, he, hf]
    | false => simp [hd, he, hf]
  | false =>
    cases hf : p.isFile with
    | true =>
      cases hext : (p.ext ≠ ".yaml" && p.ext ≠ ".yml") with
      | true => simp [hd, hf, hext]
      | false => simp_all
    | false => simp [hd, hf]

/-- Outcome of one `expect_exact([pattern, pexpect.TIMEOUT])` call: index 0
when the pattern matched before the timeout, index 1 on a timeout. -/
inductive ExpectOutcome where
  | matched
  | timedOut
deriving DecidableEq, Repr

/-- Behaviour of the interactive session towards `log_in`: whether the exact
login echo is seen before the first expect call times out, and whether the
literal Password: prompt is seen before the second expect call times out. -/
structure Session where
  echoSeen : ExpectOutcome
  promptSeen : ExpectOutcome
deriving DecidableEq, Repr

/-- The two assertion errors `log_in` can raise. -/
inductive LoginError where
  | cannotEnterLogin
  | noPasswordPrompt
deriving DecidableEq, Repr

/-- Embedding of `log_in(p, login, passwd)` (login.py lines 26-30): send the
login line; assert that the exact login echo matched (index 0) else raise
with the message about entering the login; assert that the Password: prompt
matched; finally send the password line.  The value is the list of strings
sent to the session, in order, paired with the assertion error if one was
raised. -/
def log_in (s : Session) (login passwd : String) : List String × Option LoginError :=
  let sent := [login ++ "\n"]
  match s.echoSeen with
  | ExpectOutcome.timedOut => (sent, some LoginError.cannotEnterLogin)
  | ExpectOutcome.matched =>
    match s.promptSeen with
    | ExpectOutcome.timedOut => (sent, some LoginError.noPasswordPrompt)
    | ExpectOutcome.matched => (sent ++ [passwd ++ "\n"], none)

/-! Concrete fixtures used by witnesses and counterexamples. -/

/-- Context with every mode flag off except testing. -/
def ctxQuiet : Ctx :=
  { nightly := false, should_flash := false, should_test := true, flashOk := true }

/-- Context identical to `ctxQuiet` except that nightly mode is on. -/
def ctxNight : Ctx :=
  { nightly := true, should_flash := false, should_test := true, flashOk := true }

/-- A SKIP result. -/
def resSkip : TestResult := { name := "t", status := Status.SKIP, msg := none }

/-- An OK result. -/
def resOk : TestResult := { name := "t", status := Status.OK, msg := none }

/-- A FAIL result. -/
def resFail : TestResult := { name := "t", status := Status.FAIL, msg := none }

/-- A descriptor that itself required a reboot. -/
def tRebootTrue : TestOptions :=
  { name := "a", ignore := false, should_reboot := true, bootloader := none }

/-- A descriptor with no bootloader requirement and the flag still unset. -/
def tPlain : TestOptions :=
  { name := "b", ignore := false, should_reboot := false, bootloader := none }

/-- A descriptor with `ignore` set. -/
def tIgnored : TestOptions :=
  { name := "c", ignore := true, should_reboot := false, bootloader := none }

/-- Harness behaviour where every harness returns an OK result. -/
def hbAllOk : Nat → HarnessOutcome := fun _ => HarnessOutcome.ret resOk

/-- Harness behaviour where every harness raises a HarnessError. -/
def hbAllErr : Nat → HarnessOutcome := fun _ => HarnessOutcome.err "boom"

/-- C1: for every test list and every index that is not the last, if the
completed test's result is FAIL, then after the runner applies the reboot
strategy the next descriptor's `should_reboot` is True, for every nightly
setting and every bootloader requirement of the next descriptor. -/
theorem C1_fail_forces_reboot (ctx : Ctx) (tests : List TestOptions) (idx : Nat)
    (result : TestResult) (h : idx + 1 < tests.length) (hf : result.is_fail = true) :
    rebootAt (set_reboot_flag ctx tests idx result) (idx + 1) = true := by
  rw [rebootAt_set_reboot_flag ctx tests idx result h, hf]
  simp

/-- Witness for C1 at a concrete two-element campaign with a FAIL result. -/
theorem C1_fail_forces_reboot_witness :
    0 + 1 < ([tRebootTrue, tPlain] : List TestOptions).length ∧
    resFail.is_fail = true ∧
    rebootAt (set_reboot_flag ctxQuiet [tRebootTrue, tPlain] 0 resFail) 1 = true :=
  ⟨by decide, by decide,
    C1_fail_forces_reboot ctxQuiet [tRebootTrue, tPlain] 0 resFail (by decide) (by decide)⟩

/-- C2 counterexample: a SKIP result is not FAIL, nightly is off and the next
descriptor declares no bootloader apps, yet the flag is written True, because
rule 2 propagates the skipped test's own `should_reboot = True`. -/
theorem C2_counterexample :
    resSkip.is_fail = false ∧
    ctxQuiet.nightly = false ∧
    bootApps (([tRebootTrue, tPlain] : List TestOptions).getD 1 defaultTest) = false ∧
    rebootAt (set_reboot_flag ctxQuiet [tRebootTrue, tPlain] 0 resSkip) 1 = true := by
  refine ⟨by decide, by decide, by decide, by decide⟩

/-- C2 amended: if additionally the completed test's result is not SKIP, then
with no FAIL, no nightly mode and no bootloader apps requirement the next
descriptor's `should_reboot` is written False. -/
theorem C2_no_overrides_no_reboot (ctx : Ctx) (tests : List TestOptions) (idx : Nat)
    (result : TestResult) (h : idx + 1 < tests.length)
    (hf : result.is_fail = false) (hs : result.is_skip = false)
    (hn : ctx.nightly = false)
    (ha : bootApps (tests.getD (idx + 1) defaultTest) = false) :
    rebootAt (set_reboot_flag ctx tests idx result) (idx + 1) = false := by
  rw [rebootAt_set_reboot_flag ctx tests idx result h, hf, hn, ha, hs]
  simp

/-- Witness for the amended C2 at a concrete two-element campaign with an OK
result. -/
theorem C2_no_overrides_no_reboot_witness :
    resOk.is_fail = false ∧ resOk.is_skip = false ∧ ctxQuiet.nightly = false ∧
    rebootAt (set_reboot_flag ctxQuiet [tRebootTrue, tPlain] 0 resOk) 1 = false :=
  ⟨by decide, by decide, by decide,
    C2_no_overrides_no_reboot ctxQuiet [tRebootTrue, tPlain] 0 resOk
      (by decide) (by decide) (by decide) (by decide) (by decide)⟩

/-- C3: when the completed test's result is SKIP and none of the rule-3
overrides hold, the next descriptor's `should_reboot` is written with the
value the completed descriptor's own `should_reboot` had when it was
processed. -/
theorem C3_skip_propagates (ctx : Ctx) (tests : List TestOptions) (idx : Nat)
    (result : TestResult) (h : idx + 1 < tests.length)
    (hs : result.is_skip = true) (hf : result.is_fail = false)
    (hn : ctx.nightly = false)
    (ha : bootApps (tests.getD (idx + 1) defaultTest) = false) :
    rebootAt (set_reboot_flag ctx tests idx result) (idx + 1) = rebootAt tests idx := by
  rw [rebootAt_set_reboot_flag ctx tests idx result h, hf, hn, ha, hs]
  simp

/-- Witness for C3 at a concrete two-element campaign with a SKIP result
propagating the True requirement of the skipped descriptor. -/
theorem C3_skip_propagates_witness :
    resSkip.is_skip = true ∧ resSkip.is_fail = false ∧
    rebootAt (set_reboot_flag ctxQuiet [tRebootTrue, tPlain] 0 resSkip) 1
      = rebootAt [tRebootTrue, tPlain] 0 :=
  ⟨by decide, by decide,
    C3_skip_propagates ctxQuiet [tRebootTrue, tPlain] 0 resSkip
      (by decide) (by decide) (by decide) (by decide) (by decide)⟩

/-- C4 counterexample: two runner states agreeing on the completed result and
on every field of the next descriptor (the very same descriptor list and the
same OK result), differing only in the nightly flag, write different values:
the decision is not a pure function of result and next-test requirements
alone. -/
theorem C4_counterexample :
    resOk.status = resOk.status ∧
    ([tRebootTrue, tPlain] : List TestOptions) = [tRebootTrue, tPlain] ∧
    rebootAt (set_reboot_flag ctxQuiet [tRebootTrue, tPlain] 0 resOk) 1
      ≠ rebootAt (set_reboot_flag ctxNight [tRebootTrue, tPlain] 0 resOk) 1 := by
  refine ⟨rfl, rfl, by decide⟩

/-- C4 amended: the reboot-strategy decision is a pure function of the
completed result's status, the next descriptor's bootloader apps requirement,
the nightly flag, and the completed descriptor's own `should_reboot`: any two
runner states agreeing on those four write equal values. -/
theorem C4_decision_dependencies (ctx1 ctx2 : Ctx) (tests1 tests2 : List TestOptions)
    (idx1 idx2 : Nat) (r1 r2 : TestResult)
    (h1 : idx1 + 1 < tests1.length) (h2 : idx2 + 1 < tests2.length)
    (hst : r1.status = r2.status)
    (hni : ctx1.nightly = ctx2.nightly)
    (hprev : rebootAt tests1 idx1 = rebootAt tests2 idx2)
    (happ : bootApps (tests1.getD (idx1 + 1) defaultTest)
          = bootApps (tests2.getD (idx2 + 1) defaultTest)) :
    rebootAt (set_reboot_flag ctx1 tests1 idx1 r1) (idx1 + 1)
      = rebootAt (set_reboot_flag ctx2 tests2 idx2 r2) (idx2 + 1) := by
  have hf : r1.is_fail = r2.is_fail := by
    unfold TestResult.is_fail; rw [hst]
  have hs : r1.is_skip = r2.is_skip := by
    unfold TestResult.is_skip; rw [hst]
  rw [rebootAt_set_reboot_flag ctx1 tests1 idx1 r1 h1,
      rebootAt_set_reboot_flag ctx2 tests2 idx2 r2 h2,
      hf, hs, hni, hprev, happ]

/-- Witness for the amended C4: two states with different descriptor lists
but agreeing status, nightly flag, previous flag and next-test requirement
write equal values. -/
theorem C4_decision_dependencies_witness :
    rebootAt (set_reboot_flag ctxQuiet [tPlain, tRebootTrue, tPlain] 1 resOk) 2
      = rebootAt (set_reboot_flag ctxQuiet [tRebootTrue, tPlain] 0 resOk) 1 :=
  C4_decision_dependencies ctxQuiet ctxQuiet [tPlain, tRebootTrue, tPlain]
    [tRebootTrue, tPlain] 1 0 resOk resOk
    (by decide) (by decide) rfl rfl (by decide) (by decide)

/-- C9: the reboot-strategy update of iteration `idx` is a no-op when `idx`
is the last index, leaves every index other than `idx + 1` untouched, changes
at most the `should_reboot` field at index `idx + 1`, and (since every
iteration writes only its own successor) the runner never writes descriptor
zero. -/
theorem C9_frame (ctx : Ctx) (hb : Nat → HarnessOutcome) (tests : List TestOptions)
    (idx : Nat) (result : TestResult) :
    (idx = tests.length - 1 → set_reboot_flag ctx tests idx result = tests) ∧
    (∀ j : Nat, j ≠ idx + 1 → (set_reboot_flag ctx tests idx result)[j]? = tests[j]?) ∧
    (∀ j : Nat, ((set_reboot_flag ctx tests idx result)[j]?).map stripReboot
        = (tests[j]?).map stripReboot) ∧
    (∀ tests0 : List TestOptions, (run_tests ctx hb tests0).tests[0]? = tests0[0]?) :=
  ⟨set_reboot_flag_last ctx tests idx result,
   fun j hj => getElem?_set_reboot_flag_ne ctx tests idx result j hj,
   fun j => strip_getElem?_set_reboot_flag ctx tests idx result j,
   fun tests0 => by
     rw [run_tests_eq_runUpTo]
     exact (runUpTo_invariant ctx hb tests0 tests0.length (Nat.le_refl _)).2.2.1⟩

/-- Witness for C9 at concrete inputs: the last-index no-op and the
untouched-other-index conjuncts at a concrete campaign. -/
theorem C9_frame_witness :
    set_reboot_flag ctxQuiet [tRebootTrue] 0 resOk = [tRebootTrue] ∧
    (set_reboot_flag ctxQuiet [tRebootTrue, tPlain] 0 resOk)[0]? = some tRebootTrue :=
  ⟨(C9_frame ctxQuiet hbAllOk [tRebootTrue] 0 resOk).1 (by decide),
   (C9_frame ctxQuiet hbAllOk [tRebootTrue, tPlain] 0 resOk).2.1 0 (by decide)⟩

theorem run_tests_fail_eq (ctx : Ctx) (hb : Nat → HarnessOutcome)
    (tests : List TestOptions) :
    (run_tests ctx hb tests).fail = countFailures hb tests := by
  rw [run_tests_eq_runUpTo]
  exact (runUpTo_invariant ctx hb tests tests.length (Nat.le_refl _)).2.2.2.2.1

theorem run_tests_skip_eq (ctx : Ctx) (hb : Nat → HarnessOutcome)
    (tests : List TestOptions) :
    (run_tests ctx hb tests).skip = countSkips hb tests := by
  rw [run_tests_eq_runUpTo]
  exact (runUpTo_invariant ctx hb tests tests.length (Nat.le_refl _)).2.2.2.2.2.1

theorem run_tests_results_eq (ctx : Ctx) (hb : Nat → HarnessOutcome)
    (tests : List TestOptions) :
    (run_tests ctx hb tests).results = (List.range tests.length).map (resultAt hb tests) := by
  rw [run_tests_eq_runUpTo]
  exact (runUpTo_invariant ctx hb tests tests.length (Nat.le_refl _)).2.2.2.1

theorem run_tests_events_eq (ctx : Ctx) (hb : Nat → HarnessOutcome)
    (tests : List TestOptions) :
    (run_tests ctx hb tests).events = (List.range tests.length).flatMap (eventsFor tests) := by
  rw [run_tests_eq_runUpTo]
  exact (runUpTo_invariant ctx hb tests tests.length (Nat.le_refl _)).2.2.2.2.2.2

/-- C5: whenever the campaign returns, it returns True exactly when no test's
final result is FAIL; when no test's final result is FAIL (for example when
tests only pass or are skipped) the returned value is True; and when testing
is not requested the campaign returns True without making any Target call. -/
theorem C5_run_success (ctx : Ctx) (hb : Nat → HarnessOutcome) (tests : List TestOptions) :
    (∀ b evs, run ctx hb tests = some (b, evs) → ctx.should_test = true →
      (b = true ↔ countFailures hb tests = 0)) ∧
    (∀ b evs, run ctx hb tests = some (b, evs) →
      (∀ i, i < tests.length → (resultAt hb tests i).is_fail = false) → b = true) ∧
    (ctx.should_test = false → ∀ b evs, run ctx hb tests = some (b, evs) →
      b = true ∧ evs = []) := by
  refine ⟨?_, ?_, ?_⟩
  · intro b evs hrun htest
    cases hsf : ctx.should_flash <;> cases hfo : ctx.flashOk <;>
      simp [run, hsf, hfo, htest] at hrun <;>
      rw [← hrun.1, run_tests_fail_eq] <;>
      simp
  · intro b evs hrun hall
    have hzero : countFailures hb tests = 0 := by
      unfold countFailures
      refine List.countP_eq_zero.mpr ?_
      intro i hi
      simp only [List.mem_range] at hi
      simp [hall i hi]
    cases hsf : ctx.should_flash <;> cases hfo : ctx.flashOk <;>
      cases hst2 : ctx.should_test <;>
      simp [run, hsf, hfo, hst2] at hrun <;>
      try exact hrun.1
    all_goals
      rw [← hrun.1, run_tests_fail_eq]
      simp [hzero]
  · intro htest b evs hrun
    cases hsf : ctx.should_flash <;> cases hfo : ctx.flashOk <;>
      simp [run, hsf, hfo, htest] at hrun <;>
      exact ⟨hrun.1, hrun.2⟩

/-- Witness for C5: the empty campaign returns True, and True corresponds to
a zero failure count. -/
theorem C5_run_success_witness :
    run ctxQuiet hbAllOk ([] : List TestOptions) = some (true, []) ∧
    (true = true ↔ countFailures hbAllOk ([] : List TestOptions) = 0) :=
  ⟨rfl, (C5_run_success ctxQuiet hbAllOk []).1 true [] rfl rfl⟩

theorem eventsFor_idx (tests : List TestOptions) (i : Nat) (e : Event)
    (he : e ∈ eventsFor tests i) : e.idx = i := by
  unfold eventsFor at he
  by_cases hi : (tests.getD i defaultTest).ignore = true
  · rw [if_pos hi] at he
    cases he
  · rw [if_neg hi] at he
    cases he with
    | head => rfl
    | tail _ he2 =>
      cases he2 with
      | head => rfl
      | tail _ he3 => cases he3

/-- C6: an ignored descriptor is processed without any Target call (no
harness is built or invoked for its index), contributes exactly one to the
skip count returned by `run_tests`, and contributes nothing to the failure
count. -/
theorem C6_ignored_descriptor (ctx : Ctx) (hb : Nat → HarnessOutcome)
    (tests : List TestOptions) (idx : Nat) (test : TestOptions)
    (h : tests[idx]? = some test) (hig : test.ignore = true) :
    (∀ e ∈ (run_tests ctx hb tests).events, e.idx ≠ idx) ∧
    (run_tests ctx hb tests).skip
      = ((List.range tests.length).erase idx).countP
          (fun i => !(resultAt hb tests i).is_fail && (resultAt hb tests i).is_skip) + 1 ∧
    (run_tests ctx hb tests).fail
      = ((List.range tests.length).erase idx).countP
          (fun i => (resultAt hb tests i).is_fail) := by
  have hlt : idx < tests.length := by
    cases Nat.lt_or_ge idx tests.length with
    | inl hl => exact hl
    | inr hr => rw [List.getElem?_eq_none hr] at h; cases h
  have hgetD : tests.getD idx defaultTest = test := by
    rw [List.getD_eq_getElem?_getD, h]; rfl
  have hres : resultAt hb tests idx = (TestResult.mk test.name Status.OK none).skip := by
    unfold resultAt resultFor
    rw [hgetD]
    simp [hig]
  have hskipb : (resultAt hb tests idx).is_skip = true := by rw [hres]; rfl
  have hfailb : (resultAt hb tests idx).is_fail = false := by rw [hres]; rfl
  have hmem : idx ∈ List.range tests.length := List.mem_range.mpr hlt
  have hperm := List.perm_cons_erase hmem
  refine ⟨?_, ?_, ?_⟩
  · intro e he hcontra
    rw [run_tests_events_eq] at he
    obtain ⟨i, hi, hei⟩ := List.mem_flatMap.mp he
    have hidx := eventsFor_idx tests i e hei
    rw [hcontra] at hidx
    subst hidx
    have hnil : eventsFor tests idx = [] := by
      unfold eventsFor
      rw [hgetD]
      simp [hig]
    rw [hnil] at hei
    cases hei
  · rw [run_tests_skip_eq]
    unfold countSkips
    rw [hperm.countP_eq]
    simp [List.countP_cons, hskipb, hfailb]
  · rw [run_tests_fail_eq]
    unfold countFailures
    rw [hperm.countP_eq]
    simp [List.countP_cons, hfailb]

/-- Witness for C6: a concrete campaign whose first descriptor is ignored
contributes one skip and no failure. -/
theorem C6_ignored_descriptor_witness :
    (run_tests ctxQuiet hbAllOk [tIgnored, tPlain]).skip
      = ((List.range 2).erase 0).countP
          (fun i => !(resultAt hbAllOk [tIgnored, tPlain] i).is_fail
            && (resultAt hbAllOk [tIgnored, tPlain] i).is_skip) + 1 ∧
    (run_tests ctxQuiet hbAllOk [tIgnored, tPlain]).fail
      = ((List.range 2).erase 0).countP
          (fun i => (resultAt hbAllOk [tIgnored, tPlain] i).is_fail) :=
  ⟨(C6_ignored_descriptor ctxQuiet hbAllOk [tIgnored, tPlain] 0 tIgnored rfl rfl).2.1,
   (C6_ignored_descriptor ctxQuiet hbAllOk [tIgnored, tPlain] 0 tIgnored rfl rfl).2.2⟩

/-- C7: a HarnessError raised while executing the non-ignored descriptor at
`idx` is recorded as that test's FAIL result carrying the error message, and
every descriptor still receives a result — the run never aborts because of a
per-test harness error. -/
theorem C7_harness_error_isolated (ctx : Ctx) (hb : Nat → HarnessOutcome)
    (tests : List TestOptions) (idx : Nat) (test : TestOptions) (m : String)
    (h : tests[idx]? = some test) (hig : test.ignore = false)
    (he : hb idx = HarnessOutcome.err m) :
    (run_tests ctx hb tests).results[idx]?
      = some (TestResult.mk test.name Status.FAIL (some m)) ∧
    (run_tests ctx hb tests).results.length = tests.length ∧
    (∀ j : Nat, j < tests.length →
      (run_tests ctx hb tests).results[j]? = some (resultAt hb tests j)) := by
  have hlt : idx < tests.length := by
    cases Nat.lt_or_ge idx tests.length with
    | inl hl => exact hl
    | inr hr => rw [List.getElem?_eq_none hr] at h; cases h
  have hgetD : tests.getD idx defaultTest = test := by
    rw [List.getD_eq_getElem?_getD, h]; rfl
  have hresults := run_tests_results_eq ctx hb tests
  have hjmap : ∀ j : Nat, j < tests.length →
      (run_tests ctx hb tests).results[j]? = some (resultAt hb tests j) := by
    intro j hj
    rw [hresults, List.getElem?_map, List.getElem?_range hj]
    rfl
  refine ⟨?_, ?_, hjmap⟩
  · rw [hjmap idx hlt]
    unfold resultAt resultFor
    rw [hgetD]
    simp [hig, he, TestResult.fail]
  · rw [hresults]
    simp

/-- Witness for C7: a concrete one-test campaign whose harness raises
records a FAIL result with the raised message. -/
theorem C7_harness_error_isolated_witness :
    (run_tests ctxQuiet hbAllErr [tPlain]).results[0]?
      = some (TestResult.mk "b" Status.FAIL (some "boom")) :=
  (C7_harness_error_isolated ctxQuiet hbAllErr [tPlain] 0 tPlain "boom" rfl rfl rfl).1

/-- C8: discovery raises exactly when some input path is a directory with no
matching test configuration files, an existing file with an extension other
than .yaml or .yml, or neither an existing file nor a directory; otherwise it
returns the matches of each input path concatenated in input order, a
matching file path being returned as itself. -/
theorem C8_search_spec (paths : List FsPath)
    (hwf : ∀ p ∈ paths, ¬(p.isDir = true ∧ p.isFile = true)) :
    ((∃ e, search_for_tests paths = Except.error e) ↔ ∃ p ∈ paths, badPath p = true) ∧
    (∀ res, search_for_tests paths = Except.ok res → res = paths.flatMap pathMatches) := by
  induction paths with
  | nil =>
    constructor
    · constructor
      · rintro ⟨e, he⟩
        cases he
      · rintro ⟨p, hp, _⟩
        cases hp
    · intro res hres
      cases hres
      rfl
  | cons p rest ih =>
    have hwfp : ¬(p.isDir = true ∧ p.isFile = true) := hwf p (List.mem_cons_self p rest)
    have hwfrest : ∀ q ∈ rest, ¬(q.isDir = true ∧ q.isFile = true) :=
      fun q hq => hwf q (List.mem_cons_of_mem p hq)
    obtain ⟨ihiff, ihok⟩ := ih hwfrest
    obtain ⟨hbad, hgood⟩ := searchOne_spec p hwfp
    cases hbp : badPath p with
    | true =>
      obtain ⟨e, hee⟩ := hbad hbp
      have hwhole : search_for_tests (p :: rest) = Except.error e := by
        simp [search_for_tests, hee]
      constructor
      · constructor
        · intro _
          exact ⟨p, List.mem_cons_self p rest, hbp⟩
        · intro _
          exact ⟨e, hwhole⟩
      · intro res hres
        rw [hwhole] at hres
        cases hres
    | false =>
      have hok := hgood hbp
      cases hrest : search_for_tests rest with
      | error e2 =>
        have hwhole : search_for_tests (p :: rest) = Except.error e2 := by
          simp [search_for_tests, hok, hrest]
        constructor
        · constructor
          · intro _
            obtain ⟨q, hq, hbq⟩ := ihiff.mp ⟨e2, hrest⟩
            exact ⟨q, List.mem_cons_of_mem p hq, hbq⟩
          · intro _
            exact ⟨e2, hwhole⟩
        · intro res hres
          rw [hwhole] at hres
          cases hres
      | ok more =>
        have hwhole : search_for_tests (p :: rest)
            = Except.ok (pathMatches p ++ more) := by
          simp [search_for_tests, hok, hrest]
        constructor
        · constructor
          · rintro ⟨e, he⟩
            rw [hwhole] at he
            cases he
          · rintro ⟨q, hq, hbq⟩
            cases List.mem_cons.mp hq with
            | inl heq =>
              subst heq
              rw [hbp] at hbq
              cases hbq
            | inr hq2 =>
              obtain ⟨e, he⟩ := ihiff.mpr ⟨q, hq2, hbq⟩
              rw [hrest] at he
              cases he
        · intro res hres
          rw [hwhole] at hres
          cases hres
          rw [List.flatMap_cons, ihok more hrest]

/-- A path that is an existing .yaml file. -/
def fpYaml : FsPath := FsPath.mk false true ".yaml" [] []

/-- A path that is neither an existing file nor a directory. -/
def fpNone : FsPath := FsPath.mk false false ".yaml" [] []

/-- Witness for C8: a missing path makes discovery fail, and a single .yaml
file is returned as itself. -/
theorem C8_search_spec_witness :
    (∃ e, search_for_tests [fpNone] = Except.error e) ∧
    [fpYaml] = [fpYaml].flatMap pathMatches :=
  ⟨(C8_search_spec [fpNone]
      (by intro p hp; rw [List.mem_singleton] at hp; subst hp; decide)).1.mpr
      ⟨fpNone, List.mem_singleton.mpr rfl, by decide⟩,
   (C8_search_spec [fpYaml]
      (by intro p hp; rw [List.mem_singleton] at hp; subst hp; decide)).2 [fpYaml] rfl⟩

/-- C10: the password line is sent to the session only after both the exact
login echo and the literal Password: prompt have matched; if either expect
call times out, `log_in` raises an assertion error and only the login line
was ever sent; when both match, exactly the login line followed by the
password line is sent and no error is raised. -/
theorem C10_login_order (s : Session) (login passwd : String) :
    ((s.echoSeen = ExpectOutcome.timedOut ∨ s.promptSeen = ExpectOutcome.timedOut) →
      (log_in s login passwd).1 = [login ++ "\n"] ∧
      (log_in s login passwd).2.isSome = true) ∧
    (s.echoSeen = ExpectOutcome.matched → s.promptSeen = ExpectOutcome.matched →
      (log_in s login passwd).1 = [login ++ "\n", passwd ++ "\n"] ∧
      (log_in s login passwd).2 = none) := by
  cases he : s.echoSeen <;> cases hp : s.promptSeen <;>
    simp [log_in, he, hp]

/-- Session whose expects both match. -/
def sessionGood : Session :=
  { echoSeen := ExpectOutcome.matched, promptSeen := ExpectOutcome.matched }

/-- Session whose first expect times out. -/
def sessionNoEcho : Session :=
  { echoSeen := ExpectOutcome.timedOut, promptSeen := ExpectOutcome.matched }

/-- Witness for C10 at concrete sessions and credentials. -/
theorem C10_login_order_witness :
    ((log_in sessionNoEcho "alice" "secret").1 = ["alice" ++ "\n"] ∧
      (log_in sessionNoEcho "alice" "secret").2.isSome = true) ∧
    ((log_in sessionGood "alice" "secret").1 = ["alice" ++ "\n", "secret" ++ "\n"] ∧
      (log_in sessionGood "alice" "secret").2 = none) :=
  ⟨(C10_login_order sessionNoEcho "alice" "secret").1 (Or.inl rfl),
   (C10_login_order sessionGood "alice" "secret").2 rfl rfl⟩
